import Mathlib

/-!
Verification of django-omnitenant against its specification.

The definitions in this file are shallow embeddings of the Python source:
  * `routers.py` (TenantRouter: `_get_scope`, `db_for_read`, `db_for_write`,
    `allow_migrate`),
  * `utils.py` (`convert_to_valid_pgsql_schema_name`),
  * `backends/database_backend.py` (`get_alias_and_config`, the SQL statement
    construction of `_create_database` and `_drop_database`),
  * `management/commands/migratetenants.py` (`Command.handle`),
  * `conf.py` (`_WrappedSettings.__setattr__`).

Python dictionaries become association lists, Python `None`-or-value results
become `Option`, Python truthiness is modelled explicitly, and the interfaces
to code outside this repository (the active tenant context, the Django app
registry, the connection registry) become explicit parameters.
-/

namespace Omnitenant

/-! ## Python-style string helpers -/

/-- Python `x or y` for a string-valued `x` that may be `None`:
`None` and the empty string are falsy and fall through to `y`. -/
def pyOrStr (x : Option String) (y : String) : String :=
  match x with
  | none => y
  | some s => if s = "" then y else s

/-- Python substring containment `needle in haystack`, on character lists.
The empty needle is contained in everything. -/
def listContainsSub (haystack needle : List Char) : Bool :=
  match haystack with
  | [] => needle.isEmpty
  | _ :: t => needle.isPrefixOf haystack || listContainsSub t needle

/-- Python `needle in haystack` on strings (substring containment). -/
def strContainsSub (haystack needle : String) : Bool :=
  listContainsSub haystack.data needle.data

/-! ## Entity scopes, isolation types, tenants, models

`TenantScope` is from `utils.py`.  `IsolationType` is referenced by
`routers.py` as `BaseTenant.IsolationType`; `models.py` itself is not part of
the sources here, so the enum follows the specification. -/

/-- From `utils.py`: the per-model scope tag MASTER / TENANT / SHARED. -/
inductive TenantScope where
  | MASTER
  | TENANT
  | SHARED
deriving DecidableEq, Repr

/-- Modelled from the spec: `models.py` (defining `BaseTenant.IsolationType`)
is not among the sources; the spec describes the enum DATABASE | SCHEMA |
TABLE used by the router to detect schema-isolated tenants. -/
inductive IsolationType where
  | DATABASE
  | SCHEMA
  | TABLE
deriving DecidableEq, Repr

/-- The slice of a tenant record consulted by the router. -/
structure Tenant where
  tenantId : String
  isolationType : IsolationType
deriving DecidableEq, Repr

/-- The slice of a Django model consulted by `TenantRouter._get_scope`:
its app label and its optional `tenant_scope` class attribute (the
`isinstance` check in the source makes a non-`TenantScope` value equivalent
to an absent one). -/
structure Model where
  appLabel : String
  tenantScope : Option TenantScope
deriving DecidableEq, Repr

/-- The settings and app-registry inputs of the router:
`get_custom_apps()`, `settings.MASTER_DB_ALIAS`,
`settings.DEFAULT_SCHEMA_NAME`, and per-app-label the `tenant_scope`
attribute of the AppConfig (`none` covers both a missing attribute and a
`LookupError` from `apps.get_app_config`, each of which the source turns
into the TENANT default). -/
structure Env where
  customApps : List String
  masterDbAlias : String
  defaultSchemaName : String
  appConfigScope : String → Option TenantScope

/-! ## `TenantRouter` (`routers.py`) -/

/-- `TenantRouter._get_scope`: apps outside `get_custom_apps()` default to
TENANT; otherwise the model attribute wins, then the AppConfig attribute,
then the TENANT default. -/
def getScope (env : Env) (m : Model) : TenantScope :=
  if m.appLabel ∈ env.customApps then
    match m.tenantScope with
    | some s => s
    | none => (env.appConfigScope m.appLabel).getD TenantScope.TENANT
  else
    TenantScope.TENANT

/-- `TenantRouter.db_for_read`.  `activeAlias` is the result of
`TenantContext.get_db_alias()` (`none` when no tenant is active); the
returned `none` is Python `None`, the no-tenant sentinel. -/
def dbForRead (env : Env) (activeAlias : Option String) (m : Model) :
    Option String :=
  match getScope env m with
  | TenantScope.MASTER => some env.masterDbAlias
  | TenantScope.SHARED => some (pyOrStr activeAlias env.masterDbAlias)
  | TenantScope.TENANT => activeAlias

/-- `TenantRouter.db_for_write` delegates to `db_for_read`. -/
def dbForWrite (env : Env) (activeAlias : Option String) (m : Model) :
    Option String :=
  dbForRead env activeAlias m

/-- The router's schema detection in `allow_migrate`: the destination
connection's `OPTIONS.options` string is `searchPath`;
`is_public_schema = DEFAULT_SCHEMA_NAME in search_path or
"search_path" not in search_path`. -/
def isPublicSchema (env : Env) (searchPath : String) : Bool :=
  strContainsSub searchPath env.defaultSchemaName ||
    !strContainsSub searchPath "search_path"

/-- `tenant and tenant.isolation_type == BaseTenant.IsolationType.SCHEMA`
as used (truthily) by `allow_migrate`. -/
def isSchemaIso (activeTenant : Option Tenant) : Bool :=
  match activeTenant with
  | none => false
  | some t => t.isolationType = IsolationType.SCHEMA

/-- `TenantRouter.allow_migrate` for a call that names a model that exists
(the `LookupError → None` path is not needed for a model given directly).
`activeTenant` is `TenantContext.get_tenant()`; `db` is the candidate
destination alias; `searchPath` is the destination connection's
`OPTIONS.options` string.  Returns `some` of the decision (Python `True` /
`False`). -/
def allowMigrate (env : Env) (activeTenant : Option Tenant) (db : String)
    (m : Model) (searchPath : String) : Option Bool :=
  if m.appLabel ∉ env.customApps then
    some true
  else
    let scope := getScope env m
    let isMasterDb : Bool := db = env.masterDbAlias
    let isPublic := isPublicSchema env searchPath
    match scope with
    | TenantScope.MASTER => some (isMasterDb && isPublic)
    | TenantScope.TENANT =>
        if isSchemaIso activeTenant then
          some (isMasterDb && !isPublic)
        else
          some (!isMasterDb && isPublic)
    | TenantScope.SHARED =>
        let isMasterLoc := isMasterDb && isPublic
        let isTenantLoc :=
          if isSchemaIso activeTenant then isMasterDb && !isPublic
          else !isMasterDb
        some (isMasterLoc || isTenantLoc)

/-! ## Schema name normalization (`utils.py`,
`convert_to_valid_pgsql_schema_name`)

The function is embedded on character lists.  `str.lower()` is modelled per
character; since every character outside `[a-zA-Z0-9_]` is replaced by an
underscore in the next step anyway, this coincides with the source except on
exotic code points whose lowercasing is not one-to-one, and those replace to
underscores on both sides. -/

/-- Python `startswith` / prefix test on strings, by code points. -/
def strStartsWith (s p : String) : Bool :=
  p.data.isPrefixOf s.data

/-- Per-character lowercasing, Python `str.lower()`. -/
def lowerChars (l : List Char) : List Char :=
  l.map Char.toLower

/-- The character class of the regex `[^a-zA-Z0-9_]` (negated): a character
the regex keeps. -/
def pgValidChar (c : Char) : Bool :=
  ('a' ≤ c && c ≤ 'z') || ('A' ≤ c && c ≤ 'Z') ||
    ('0' ≤ c && c ≤ '9') || c = '_'

/-- `re.sub(r"[^a-zA-Z0-9_]", "_", ...)`: every invalid character is
replaced by an underscore. -/
def pgReplaceInvalid (l : List Char) : List Char :=
  l.map (fun c => if pgValidChar c then c else '_')

/-- Python `x or y` on a character-list-valued string: empty is falsy. -/
def pyOrList (x y : List Char) : List Char :=
  if x.isEmpty then y else x

/-- Step 3 of the source: if the name starts with `pg_`, replace the prefix,
`name = f"x_\x7bname[3:]\x7d" or "x"` (the fallback is unreachable since the
interpolation is never empty, and is kept for fidelity). -/
def pgFixReservedPrefix (n : List Char) : List Char :=
  if List.isPrefixOf ['p', 'g', '_'] n then
    pyOrList ('x' :: '_' :: n.drop 3) ['x']
  else n

/-- Step 4 of the source: an empty result becomes `default_schema`. -/
def pgDefaultIfEmpty (n : List Char) : List Char :=
  if n.isEmpty then "default_schema".data else n

/-- `convert_to_valid_pgsql_schema_name` on character lists: lowercase,
replace invalid characters, truncate to 63, fix the reserved `pg_` prefix,
default if empty. -/
def convertChars (l : List Char) : List Char :=
  pgDefaultIfEmpty (pgFixReservedPrefix ((pgReplaceInvalid (lowerChars l)).take 63))

/-- `convert_to_valid_pgsql_schema_name` from `utils.py`. -/
def convert_to_valid_pgsql_schema_name (s : String) : String :=
  ⟨convertChars s.data⟩

/-! ## Python values and dictionaries

Used to embed `DatabaseTenantBackend.get_alias_and_config` and
`_WrappedSettings.__setattr__`, whose dictionaries hold heterogeneous
values. -/

/-- A Python value as it occurs in the database configuration dictionaries:
`None`, a string, an integer, a boolean, or a nested dictionary. -/
inductive PyVal where
  | vNone
  | vStr (s : String)
  | vInt (n : Int)
  | vBool (b : Bool)
  | vDict (d : List (String × PyVal))

/-- Python truthiness for the values above. -/
def truthy : PyVal → Bool
  | PyVal.vNone => false
  | PyVal.vStr s => !(s = "")
  | PyVal.vInt n => !(n = 0)
  | PyVal.vBool b => b
  | PyVal.vDict d => !d.isEmpty

/-- Python `x or y` on values. -/
def pyOr (x y : PyVal) : PyVal :=
  if truthy x then x else y

/-- `dict.get(k)`: the value under `k`, if present. -/
def dGet (d : List (String × PyVal)) (k : String) : Option PyVal :=
  (d.find? (fun p => p.1 = k)).map (fun p => p.2)

/-- `dict.get(k)` with Python's `None` for a missing key. -/
def dGetN (d : List (String × PyVal)) (k : String) : PyVal :=
  (dGet d k).getD PyVal.vNone

/-- `dict.get(k, default)`. -/
def dGetD (d : List (String × PyVal)) (k : String) (dflt : PyVal) : PyVal :=
  (dGet d k).getD dflt

/-- `dict[k] = v`: overwrite in place, or append when absent. -/
def dSet (d : List (String × PyVal)) (k : String) (v : PyVal) :
    List (String × PyVal) :=
  if (d.find? (fun p => p.1 = k)).isSome then
    d.map (fun p => if p.1 = k then (k, v) else p)
  else
    d ++ [(k, v)]

/-- Lowercased string, for `requests.structures.CaseInsensitiveDict`
lookups. -/
def lowerStr (s : String) : String :=
  ⟨lowerChars s.data⟩

/-- `CaseInsensitiveDict.get(k)`: keys compare case-insensitively. -/
def ciGet (d : List (String × PyVal)) (k : String) : Option PyVal :=
  (d.find? (fun p => lowerStr p.1 = lowerStr k)).map (fun p => p.2)

/-- `CaseInsensitiveDict.get(k)` with `None` for a missing key. -/
def ciGetN (d : List (String × PyVal)) (k : String) : PyVal :=
  (ciGet d k).getD PyVal.vNone

/-- `k in CaseInsensitiveDict`. -/
def ciMem (d : List (String × PyVal)) (k : String) : Bool :=
  (ciGet d k).isSome

/-! ## `DatabaseTenantBackend.get_alias_and_config`
(`backends/database_backend.py`) -/

/-- The Django settings consulted by `get_alias_and_config`:
`settings.MASTER_DB_ALIAS`, `settings.DATABASES` and
`settings.TIME_ZONE`. -/
structure DjangoSettings where
  masterDbAlias : String
  databases : List (String × List (String × PyVal))
  timeZone : String

/-- `settings.DATABASES.get(settings.MASTER_DB_ALIAS, \x7b\x7d)`, the master
configuration used as the per-field fallback. -/
def masterBase (st : DjangoSettings) : List (String × PyVal) :=
  ((st.databases.find? (fun p => p.1 = st.masterDbAlias)).map
    (fun p => p.2)).getD []

/-- `DatabaseTenantBackend.get_alias_and_config`.  `dbConfig` is the
contents of `CaseInsensitiveDict(tenant.config.get("db_config", \x7b\x7d))`.
Returns the alias and the resolved configuration, each field merged
independently: the tenant value when truthy (or, for the fields checked
with `in`, when present), else the master value, else the hard default.
A non-dictionary `TEST` value would fail the attribute lookup in the
source; it is returned unchanged here. -/
def get_alias_and_config (st : DjangoSettings)
    (dbConfig : List (String × PyVal)) : PyVal × List (String × PyVal) :=
  let dbAlias := pyOr (ciGetN dbConfig "ALIAS")
    (pyOr (ciGetN dbConfig "NAME") (PyVal.vStr st.masterDbAlias))
  let base := masterBase st
  let engine := pyOr (ciGetN dbConfig "ENGINE")
    (dGetD base "ENGINE" (PyVal.vStr "django_omnitenant.backends.postgresql"))
  let name := pyOr (ciGetN dbConfig "NAME") (dGetN base "NAME")
  let user := pyOr (ciGetN dbConfig "USER") (dGetN base "USER")
  let password := pyOr (ciGetN dbConfig "PASSWORD") (dGetN base "PASSWORD")
  let host := pyOr (ciGetN dbConfig "HOST") (dGetN base "HOST")
  let port := pyOr (ciGetN dbConfig "PORT") (dGetN base "PORT")
  let options := pyOr (ciGetN dbConfig "OPTIONS")
    (dGetD base "OPTIONS" (PyVal.vDict []))
  let timeZone := pyOr (ciGetN dbConfig "TIME_ZONE")
    (dGetD base "TIME_ZONE" (PyVal.vStr st.timeZone))
  let atomic := if ciMem dbConfig "ATOMIC_REQUESTS" then
      ciGetN dbConfig "ATOMIC_REQUESTS"
    else dGetD base "ATOMIC_REQUESTS" (PyVal.vBool false)
  let autocommit := if ciMem dbConfig "AUTOCOMMIT" then
      ciGetN dbConfig "AUTOCOMMIT"
    else dGetD base "AUTOCOMMIT" (PyVal.vBool true)
  let connMaxAge := if ciMem dbConfig "CONN_MAX_AGE" then
      ciGetN dbConfig "CONN_MAX_AGE"
    else dGetD base "CONN_MAX_AGE" (PyVal.vInt 0)
  let connHealth := if ciMem dbConfig "CONN_HEALTH_CHECKS" then
      ciGetN dbConfig "CONN_HEALTH_CHECKS"
    else dGetD base "CONN_HEALTH_CHECKS" (PyVal.vBool false)
  let test0 := if ciMem dbConfig "TEST" then ciGetN dbConfig "TEST"
    else dGetD base "TEST" (PyVal.vDict [])
  let test := match test0 with
    | PyVal.vDict d =>
        if truthy (dGetN d "NAME") then PyVal.vDict d
        else PyVal.vDict (dSet d "NAME" name)
    | v => v
  (dbAlias,
    [("ENGINE", engine), ("NAME", name), ("USER", user),
      ("PASSWORD", password), ("HOST", host), ("PORT", port),
      ("OPTIONS", options), ("TIME_ZONE", timeZone),
      ("ATOMIC_REQUESTS", atomic), ("AUTOCOMMIT", autocommit),
      ("CONN_MAX_AGE", connMaxAge), ("CONN_HEALTH_CHECKS", connHealth),
      ("TEST", test)])

/-! ## Create/drop statement construction
(`backends/database_backend.py`, `_create_database` and `_drop_database`)

`_create_database` builds its statement with
`sql.SQL("CREATE DATABASE ").format(sql.Identifier(db_name))`: the psycopg
identifier quoting wraps the name in double quotes and doubles every
embedded double quote.  `_drop_database` builds its statement with the
f-string `DROP DATABASE IF EXISTS "..."`: plain interpolation between two
double quotes.  A small parser recovers, from a generated statement, the
single quoted identifier it targets — when the whole remainder of the
statement is one such identifier. -/

/-- psycopg `sql.Identifier` escaping of the characters: every `"` becomes
`""`. -/
def escapeIdentChars : List Char → List Char
  | [] => []
  | c :: t =>
      if c = '"' then '"' :: '"' :: escapeIdentChars t
      else c :: escapeIdentChars t

/-- psycopg `sql.Identifier(db_name)`: the name quoted and escaped. -/
def quoteIdent (s : String) : String :=
  "\"" ++ String.mk (escapeIdentChars s.data) ++ "\""

/-- The statement issued by `_create_database`:
`sql.SQL("CREATE DATABASE \x7b\x7d").format(sql.Identifier(db_name))`. -/
def createDatabaseStmt (dbName : String) : String :=
  "CREATE DATABASE " ++ quoteIdent dbName

/-- The statement issued by `_drop_database`: the f-string
`DROP DATABASE IF EXISTS "..."` — plain interpolation of the name between
two quote characters, with no escaping. -/
def dropDatabaseStmt (dbName : String) : String :=
  "DROP DATABASE IF EXISTS \"" ++ dbName ++ "\""

/-- Reads a quoted-identifier body (opening quote already consumed):
`""` is an escaped quote, a single `"` closes.  Returns the identifier
characters and the input after the closing quote. -/
def parseIdentBody : List Char → Option (List Char × List Char)
  | [] => none
  | '"' :: '"' :: t =>
      (parseIdentBody t).map (fun r => ('"' :: r.1, r.2))
  | '"' :: t => some ([], t)
  | c :: t => (parseIdentBody t).map (fun r => (c :: r.1, r.2))

/-- The input parses as exactly one quoted identifier and nothing after
it. -/
def parseSingleQuotedIdent (l : List Char) : Option (List Char) :=
  match l with
  | '"' :: t =>
      match parseIdentBody t with
      | some (i, []) => some i
      | _ => none
  | _ => none

/-- The single database a generated statement can affect: the statement
must be the given fixed prefix followed by exactly one quoted identifier,
which is returned.  When the name interpolated into the statement escapes
its quoting, this is `none` — the statement is not confined to one
database. -/
def stmtSingleTarget (pre : String) (stmt : String) : Option String :=
  if pre.data.isPrefixOf stmt.data then
    (parseSingleQuotedIdent (stmt.data.drop pre.data.length)).map String.mk
  else none

/-! ## `migratetenants` (`management/commands/migratetenants.py`,
`Command.handle`)

The per-tenant backend obtained by `get_tenant_backend(tenant)` is
abstracted as a function from the tenant and the positional
`(app_label, migration_name)` arguments to an `Except`: `.error` is an
exception raised by `backend.migrate`. -/

/-- A tenant row as iterated by `Tenant.objects.all()`. -/
structure TenantRow where
  tenantId : String
deriving DecidableEq, Repr

/-- One invocation of `backend.migrate`: the tenant and the positional
arguments it received. -/
structure Invocation where
  tenantId : String
  appLabel : Option String
  migrationName : Option String
deriving DecidableEq, Repr

/-- The styled lines written by `Command.handle`: the per-tenant heading,
the success line, or the failure line with the caught error. -/
inductive MigrateMsg where
  | heading (tenantId : String) (target : String)
  | success (tenantId : String)
  | failure (tenantId : String) (error : String)
deriving DecidableEq, Repr

/-- The result of the batch: every `backend.migrate` invocation made, and
the output lines, in order. -/
structure BatchResult where
  invocations : List Invocation
  messages : List MigrateMsg
deriving DecidableEq, Repr

/-- The `migration_target` string interpolated into the heading. -/
def migrationTarget (appLabel migName : Option String) (resetAll : Bool) :
    String :=
  match appLabel with
  | some a =>
      " (app: " ++ a ++
        (match migName with
          | some mn => ", migration: " ++ mn
          | none => "") ++ ")"
  | none => if resetAll then " (all apps: zero)" else ""

/-- The `reset_all` inner loop: migrate every installed app to zero,
skipping apps whose error mentions `does not have migrations` and
re-raising any other error to the per-tenant handler. -/
def migrateZeroLoop
    (migrate : TenantRow → Option String → Option String → Except String Unit)
    (t : TenantRow) :
    List String → List Invocation × Except String Unit
  | [] => ([], Except.ok ())
  | app :: rest =>
      let inv : Invocation := ⟨t.tenantId, some app, some "zero"⟩
      match migrate t (some app) (some "zero") with
      | Except.ok _ =>
          let r := migrateZeroLoop migrate t rest
          (inv :: r.1, r.2)
      | Except.error e =>
          if strContainsSub e "does not have migrations" then
            let r := migrateZeroLoop migrate t rest
            (inv :: r.1, r.2)
          else ([inv], Except.error e)

/-- The body of the per-tenant `try`: dispatch to `backend.migrate` with
the positional arguments the source passes. -/
def tenantMigrateStep
    (migrate : TenantRow → Option String → Option String → Except String Unit)
    (appConfigs : List String) (appLabel migName : Option String)
    (resetAll : Bool) (t : TenantRow) :
    List Invocation × Except String Unit :=
  if resetAll then migrateZeroLoop migrate t appConfigs
  else
    match appLabel with
    | some a => ([⟨t.tenantId, some a, migName⟩], migrate t (some a) migName)
    | none => ([⟨t.tenantId, none, none⟩], migrate t none none)

/-- The tenant loop of `Command.handle`: for each tenant write the heading,
run the `try` body, and write the success line or — catching the
exception — the failure line, then continue with the next tenant. -/
def handleLoop
    (migrate : TenantRow → Option String → Option String → Except String Unit)
    (appConfigs : List String) (appLabel migName : Option String)
    (resetAll : Bool) : List TenantRow → BatchResult
  | [] => ⟨[], []⟩
  | t :: ts =>
      let target := migrationTarget appLabel migName resetAll
      let step := tenantMigrateStep migrate appConfigs appLabel migName
        resetAll t
      let msg := match step.2 with
        | Except.ok _ => MigrateMsg.success t.tenantId
        | Except.error e => MigrateMsg.failure t.tenantId e
      let rest := handleLoop migrate appConfigs appLabel migName resetAll ts
      ⟨step.1 ++ rest.invocations,
        MigrateMsg.heading t.tenantId target :: msg :: rest.messages⟩

/-- `Command.handle` of `migratetenants`: computes `reset_all` from the
arguments, then iterates all tenants.  No per-tenant failure escapes the
loop — the result is a plain `BatchResult`. -/
def migrateAllTenants
    (migrate : TenantRow → Option String → Option String → Except String Unit)
    (appConfigs : List String) (appLabelArg migNameArg : Option String)
    (tenants : List TenantRow) : BatchResult :=
  let resetAll := decide (appLabelArg = some "zero") &&
    decide (migNameArg = none)
  let appLabel := if resetAll then none else appLabelArg
  handleLoop migrate appConfigs appLabel migNameArg resetAll tenants

/-! ## `_WrappedSettings.__setattr__` (`conf.py`) -/

/-- The state seen by the settings wrapper: its own instance `__dict__`
(holding the values cached by `cached_property`) and the underlying Django
settings object. -/
structure SettingsState where
  wrapperDict : List (String × PyVal)
  djangoSettings : List (String × PyVal)

/-- `_WrappedSettings.__setattr__`: raise `ValueError` when the key is
already in the instance `__dict__`, otherwise forward the assignment to
the Django settings object. -/
def wrappedSetattr (st : SettingsState) (key : String) (v : PyVal) :
    Except String SettingsState :=
  if (st.wrapperDict.find? (fun p => p.1 = key)).isSome then
    Except.error "Item assignment is not supported"
  else
    Except.ok ⟨st.wrapperDict, dSet st.djangoSettings key v⟩

end Omnitenant

namespace Omnitenant

/-! ## Claim theorems: routing -/

/-- C1: `db_for_read` (and `db_for_write`, which delegates to it) returns
the master alias for MASTER scope regardless of any active tenant; the
active tenant's alias for TENANT scope (the `None` sentinel when no tenant
is active); and for SHARED scope the active tenant's alias when one is
active, else the master alias.  The alias of an active tenant is a
non-empty string. -/
theorem db_for_read_routing (env : Env) (m : Model) (a : String)
    (ha : a ≠ "") :
    (getScope env m = TenantScope.MASTER →
      (∀ ctx : Option String, dbForRead env ctx m = some env.masterDbAlias ∧
        dbForWrite env ctx m = some env.masterDbAlias)) ∧
    (getScope env m = TenantScope.TENANT →
      dbForRead env (some a) m = some a ∧
      dbForRead env none m = none ∧
      dbForWrite env (some a) m = some a) ∧
    (getScope env m = TenantScope.SHARED →
      dbForRead env (some a) m = some a ∧
      dbForRead env none m = some env.masterDbAlias ∧
      dbForWrite env (some a) m = some a) := by
  refine ⟨fun h ctx => ?_, fun h => ?_, fun h => ?_⟩ <;>
    simp [dbForRead, dbForWrite, h, pyOrStr, ha]

/-- Witness for C1 at a concrete environment, model and alias. -/
theorem db_for_read_routing_witness :
    ("acme" : String) ≠ "" ∧
    (dbForRead ⟨["app"], "default", "public", fun _ => none⟩ (some "acme")
      ⟨"app", some TenantScope.SHARED⟩ = some "acme") := by
  refine ⟨by decide, ?_⟩
  have h := db_for_read_routing ⟨["app"], "default", "public", fun _ => none⟩
    ⟨"app", some TenantScope.SHARED⟩ "acme" (by decide)
  exact (h.2.2 (by decide)).1

/-- C2: for a MASTER-scoped model of a managed (custom) app,
`allow_migrate` decides `True` exactly when the destination is the master
alias and the public/default schema is active there. -/
theorem allow_migrate_master_matrix (env : Env) (m : Model)
    (hc : m.appLabel ∈ env.customApps)
    (hs : getScope env m = TenantScope.MASTER)
    (activeTenant : Option Tenant) (db : String) (searchPath : String) :
    allowMigrate env activeTenant db m searchPath =
      some (decide (db = env.masterDbAlias) && isPublicSchema env searchPath) := by
  simp [allowMigrate, hc, hs]

/-- Witness for C2 at a concrete environment and destination. -/
theorem allow_migrate_master_matrix_witness :
    allowMigrate ⟨["app"], "default", "public", fun _ => none⟩ none "default"
      ⟨"app", some TenantScope.MASTER⟩ "" =
      some (decide (("default" : String) = "default") &&
        isPublicSchema ⟨["app"], "default", "public", fun _ => none⟩ "") := by
  exact allow_migrate_master_matrix ⟨["app"], "default", "public", fun _ => none⟩
    ⟨"app", some TenantScope.MASTER⟩ (by decide) (by decide) none "default" ""

/-- C3: for a TENANT-scoped model of a managed app: at the master alias the
decision is `True` exactly when the active tenant is schema-isolated and a
non-default schema is active; and when the active tenant is not
schema-isolated (or none is active) the decision is `True` exactly at a
non-master alias with the default schema active. -/
theorem allow_migrate_tenant_matrix (env : Env) (m : Model)
    (hc : m.appLabel ∈ env.customApps)
    (hs : getScope env m = TenantScope.TENANT)
    (activeTenant : Option Tenant) (db : String) (searchPath : String) :
    (db = env.masterDbAlias →
      (allowMigrate env activeTenant db m searchPath = some true ↔
        (isSchemaIso activeTenant = true ∧
          isPublicSchema env searchPath = false))) ∧
    (isSchemaIso activeTenant = false →
      (allowMigrate env activeTenant db m searchPath = some true ↔
        (db ≠ env.masterDbAlias ∧ isPublicSchema env searchPath = true))) := by
  constructor
  · intro hdb
    subst hdb
    cases hiso : isSchemaIso activeTenant <;>
      cases hpub : isPublicSchema env searchPath <;>
        simp [allowMigrate, hc, hs, hiso, hpub]
  · intro hiso
    cases hpub : isPublicSchema env searchPath <;>
      by_cases hdb : db = env.masterDbAlias <;>
        simp [allowMigrate, hc, hs, hiso, hpub, hdb]

/-- Witness for C3 at a concrete environment and destination. -/
theorem allow_migrate_tenant_matrix_witness :
    allowMigrate ⟨["app"], "default", "public", fun _ => none⟩ none "acme_db"
      ⟨"app", some TenantScope.TENANT⟩ "" = some true := by
  have h := allow_migrate_tenant_matrix ⟨["app"], "default", "public", fun _ => none⟩
    ⟨"app", some TenantScope.TENANT⟩ (by decide) (by decide) none "acme_db" ""
  exact (h.2 (by decide)).mpr (by decide)

/-- C4, counterexample: with no active tenant, at the non-master alias
`"acme_db"` with a non-default schema active
(options string `"-c search_path=acme"`), a SHARED-scoped model is
permitted (`True`) although neither the MASTER rule nor the TENANT rule
permits that location — so the SHARED decision is not the OR of the two
rules. -/
theorem allow_migrate_shared_not_or :
    allowMigrate ⟨["app"], "default", "public", fun _ => none⟩ none "acme_db"
      ⟨"app", some TenantScope.SHARED⟩ "-c search_path=acme" = some true ∧
    allowMigrate ⟨["app"], "default", "public", fun _ => none⟩ none "acme_db"
      ⟨"app", some TenantScope.MASTER⟩ "-c search_path=acme" = some false ∧
    allowMigrate ⟨["app"], "default", "public", fun _ => none⟩ none "acme_db"
      ⟨"app", some TenantScope.TENANT⟩ "-c search_path=acme" = some false := by
  decide

/-- C4, amended: for a SHARED-scoped model of a managed app, when the
active tenant is schema-isolated the decision is exactly the OR of the
MASTER-rule and the TENANT-rule decisions at the same inputs; when the
active tenant is not schema-isolated (or none is active), the TENANT
disjunct weakens to "any non-master alias" — the default-schema
requirement of the TENANT rule is dropped. -/
theorem allow_migrate_shared_amended (env : Env) (m : Model)
    (hc : m.appLabel ∈ env.customApps)
    (hs : getScope env m = TenantScope.SHARED)
    (activeTenant : Option Tenant) (db : String) (searchPath : String) :
    (isSchemaIso activeTenant = true →
      allowMigrate env activeTenant db m searchPath =
        some ((allowMigrate env activeTenant db
            ⟨m.appLabel, some TenantScope.MASTER⟩ searchPath).getD false ||
          (allowMigrate env activeTenant db
            ⟨m.appLabel, some TenantScope.TENANT⟩ searchPath).getD false)) ∧
    (isSchemaIso activeTenant = false →
      allowMigrate env activeTenant db m searchPath =
        some ((allowMigrate env activeTenant db
            ⟨m.appLabel, some TenantScope.MASTER⟩ searchPath).getD false ||
          !decide (db = env.masterDbAlias))) := by
  have hM : getScope env ⟨m.appLabel, some TenantScope.MASTER⟩ =
      TenantScope.MASTER := by simp [getScope, hc]
  have hT : getScope env ⟨m.appLabel, some TenantScope.TENANT⟩ =
      TenantScope.TENANT := by simp [getScope, hc]
  constructor
  · intro hiso
    simp [allowMigrate, hc, hs, hM, hT, hiso]
  · intro hiso
    simp [allowMigrate, hc, hs, hM, hT, hiso]

/-- Witness for the amended C4 at a concrete input. -/
theorem allow_migrate_shared_amended_witness :
    allowMigrate ⟨["app"], "default", "public", fun _ => none⟩ none "acme_db"
      ⟨"app", some TenantScope.SHARED⟩ "-c search_path=acme" =
      some ((allowMigrate ⟨["app"], "default", "public", fun _ => none⟩ none
          "acme_db" ⟨"app", some TenantScope.MASTER⟩
          "-c search_path=acme").getD false ||
        !decide (("acme_db" : String) = "default")) := by
  have h := allow_migrate_shared_amended
    ⟨["app"], "default", "public", fun _ => none⟩
    ⟨"app", some TenantScope.SHARED⟩ (by decide) (by decide) none "acme_db"
    "-c search_path=acme"
  exact h.2 (by decide)

/-- C9: a model whose app label is not in the configured custom-apps list
resolves to TENANT scope, so `db_for_read` returns the active context's
alias unchanged (the `None` sentinel when no tenant is active, never the
master alias by default), while `allow_migrate` for that app label is
`True` at every destination, schema state and active tenant. -/
theorem non_custom_app_routing (env : Env) (m : Model)
    (hnc : m.appLabel ∉ env.customApps) :
    getScope env m = TenantScope.TENANT ∧
    (∀ ctx : Option String, dbForRead env ctx m = ctx ∧
      dbForWrite env ctx m = ctx) ∧
    (∀ (activeTenant : Option Tenant) (db : String) (searchPath : String),
      allowMigrate env activeTenant db m searchPath = some true) := by
  have hg : getScope env m = TenantScope.TENANT := by
    simp [getScope, hnc]
  refine ⟨hg, fun ctx => ?_, fun activeTenant db searchPath => ?_⟩
  · simp [dbForRead, dbForWrite, hg]
  · simp [allowMigrate, hnc]

/-- Witness for C9 at a concrete environment and model. -/
theorem non_custom_app_routing_witness :
    (("celery" : String) ∉ (["app"] : List String)) ∧
    dbForRead ⟨["app"], "default", "public", fun _ => none⟩ none
      ⟨"celery", none⟩ = none ∧
    allowMigrate ⟨["app"], "default", "public", fun _ => none⟩ none "x"
      ⟨"celery", none⟩ "y" = some true := by
  have h := non_custom_app_routing ⟨["app"], "default", "public", fun _ => none⟩
    ⟨"celery", none⟩ (by decide)
  exact ⟨by decide, (h.2.1 none).1, h.2.2 none "x" "y"⟩

/-! ## Claim theorems: schema name normalization -/

/-- Truncation to 63 characters bounds the length. -/
theorem take63_length_le (l : List Char) :
    ((pgReplaceInvalid (lowerChars l)).take 63).length ≤ 63 := by
  rw [List.length_take]
  exact Nat.min_le_left _ _

/-- The reserved-prefix fix does not push the length above 63. -/
theorem pgFixReservedPrefix_length_le (n : List Char) (h : n.length ≤ 63) :
    (pgFixReservedPrefix n).length ≤ 63 := by
  unfold pgFixReservedPrefix pyOrList
  split
  · split
    · simp
    · simp [List.length_drop]
      omega
  · exact h

/-- Defaulting an empty name keeps the length within 63. -/
theorem pgDefaultIfEmpty_length_le (n : List Char) (h : n.length ≤ 63) :
    (pgDefaultIfEmpty n).length ≤ 63 := by
  unfold pgDefaultIfEmpty
  split
  · decide
  · exact h

/-- The normalized name never exceeds 63 characters. -/
theorem convertChars_length_le (l : List Char) :
    (convertChars l).length ≤ 63 :=
  pgDefaultIfEmpty_length_le _
    (pgFixReservedPrefix_length_le _ (take63_length_le l))

/-- The normalized name never starts with the reserved `pg_` prefix. -/
theorem convertChars_not_pg (l : List Char) :
    List.isPrefixOf ['p', 'g', '_'] (convertChars l) = false := by
  unfold convertChars pgDefaultIfEmpty pgFixReservedPrefix pyOrList
  cases hpre : List.isPrefixOf ['p', 'g', '_']
      ((pgReplaceInvalid (lowerChars l)).take 63)
  · cases hemp : ((pgReplaceInvalid (lowerChars l)).take 63).isEmpty
    · simp [hpre, hemp]
    · simp [hpre, hemp]
      decide
  · simp [hpre, List.isPrefixOf]

/-- C5, counterexample: the source replaces every invalid character with an
underscore, so `"!!!"` normalizes to `"___"`, not to `"default_schema"`
(which only arises for the empty input). -/
theorem normalize_bang_not_default :
    convert_to_valid_pgsql_schema_name "!!!" = "___" ∧
    convert_to_valid_pgsql_schema_name "!!!" ≠ "default_schema" := by
  constructor
  · decide
  · decide

/-- C5, amended: `normalize("My Tenant Inc.") = "my_tenant_inc_"`,
`normalize("pg_custom") = "x_custom"`, `normalize("!!!") = "___"`
(`"default_schema"` is produced exactly for the empty input), and for every
input the output has length at most 63 and never starts with `"pg_"`. -/
theorem normalize_schema_name_properties :
    convert_to_valid_pgsql_schema_name "My Tenant Inc." = "my_tenant_inc_" ∧
    convert_to_valid_pgsql_schema_name "pg_custom" = "x_custom" ∧
    convert_to_valid_pgsql_schema_name "!!!" = "___" ∧
    convert_to_valid_pgsql_schema_name "" = "default_schema" ∧
    (∀ s : String, (convert_to_valid_pgsql_schema_name s).length ≤ 63) ∧
    (∀ s : String,
      strStartsWith (convert_to_valid_pgsql_schema_name s) "pg_" = false) := by
  refine ⟨by decide, by decide, by decide, by decide, fun s => ?_, fun s => ?_⟩
  · exact convertChars_length_le s.data
  · show List.isPrefixOf "pg_".data (convertChars s.data) = false
    have h : "pg_".data = ['p', 'g', '_'] := rfl
    rw [h]
    exact convertChars_not_pg s.data

/-! ## Claim theorems: create/drop statement safety -/

/-- The psycopg identifier escaping round-trips: the escaped body followed
by the closing quote parses back to the original characters with nothing
left over. -/
theorem parseIdentBody_escape (l : List Char) :
    parseIdentBody (escapeIdentChars l ++ ['"']) = some (l, []) := by
  induction l with
  | nil => rfl
  | cons c t ih =>
      by_cases hc : c = '"'
      · subst hc
        simp [escapeIdentChars, parseIdentBody, ih]
      · rw [escapeIdentChars]
        simp only [if_neg hc]
        rw [List.cons_append, parseIdentBody.eq_def]
        split
        · simp_all
        · simp_all
        · simp_all
        · simp_all [ih]

/-- C7: the CREATE statement of `_create_database` confines every name —
including names containing quotes and SQL fragments — to a single quoted
identifier, but the DROP statement of `_drop_database` is built by string
interpolation: the name
`x" WITH (FORCE); DROP DATABASE "y` yields a statement that escapes its
quoting and is not confined to a single database. -/
theorem create_escapes_drop_injectable :
    (∀ name : String,
      stmtSingleTarget "CREATE DATABASE " (createDatabaseStmt name) =
        some name) ∧
    stmtSingleTarget "DROP DATABASE IF EXISTS "
      (dropDatabaseStmt "acme_db") = some "acme_db" ∧
    dropDatabaseStmt "x\" WITH (FORCE); DROP DATABASE \"y" =
      "DROP DATABASE IF EXISTS \"x\" WITH (FORCE); DROP DATABASE \"y\"" ∧
    stmtSingleTarget "DROP DATABASE IF EXISTS "
      (dropDatabaseStmt "x\" WITH (FORCE); DROP DATABASE \"y") = none := by
  refine ⟨fun name => ?_, by decide, by decide, by decide⟩
  show stmtSingleTarget "CREATE DATABASE "
    ("CREATE DATABASE " ++ quoteIdent name) = some name
  have hdata : ("CREATE DATABASE " ++ quoteIdent name).data =
      "CREATE DATABASE ".data ++
        ('"' :: (escapeIdentChars name.data ++ ['"'])) := by
    simp [quoteIdent, String.data_append]
  rw [stmtSingleTarget, hdata]
  rw [if_pos (List.isPrefixOf_iff_prefix.mpr (List.prefix_append _ _))]
  rw [List.drop_left]
  simp [parseSingleQuotedIdent, parseIdentBody_escape]

/-! ## Claim theorems: configuration resolution -/

/-- C6: the resolved database configuration is merged field by field: a
truthy tenant-provided field wins, an absent field falls back independently
to the master value, and fields with a hard default (such as ENGINE) use it
when both are absent; in particular a tenant override of only HOST over a
master configuration with HOST and PORT yields the tenant HOST and the
master PORT. -/
theorem config_merge_field_by_field :
    (dGetN (get_alias_and_config
        ⟨"default",
          [("default", [("HOST", PyVal.vStr "b"), ("PORT", PyVal.vInt 5432)])],
          "UTC"⟩
        [("HOST", PyVal.vStr "a")]).2 "HOST" = PyVal.vStr "a" ∧
      dGetN (get_alias_and_config
        ⟨"default",
          [("default", [("HOST", PyVal.vStr "b"), ("PORT", PyVal.vInt 5432)])],
          "UTC"⟩
        [("HOST", PyVal.vStr "a")]).2 "PORT" = PyVal.vInt 5432) ∧
    (∀ (st : DjangoSettings) (cfg : List (String × PyVal)),
      truthy (ciGetN cfg "HOST") = true →
      dGetN (get_alias_and_config st cfg).2 "HOST" = ciGetN cfg "HOST") ∧
    (∀ (st : DjangoSettings) (cfg : List (String × PyVal)),
      ciGet cfg "HOST" = none →
      dGetN (get_alias_and_config st cfg).2 "HOST" =
        dGetN (masterBase st) "HOST") ∧
    (∀ (st : DjangoSettings) (cfg : List (String × PyVal)),
      truthy (ciGetN cfg "PORT") = true →
      dGetN (get_alias_and_config st cfg).2 "PORT" = ciGetN cfg "PORT") ∧
    (∀ (st : DjangoSettings) (cfg : List (String × PyVal)),
      ciGet cfg "PORT" = none →
      dGetN (get_alias_and_config st cfg).2 "PORT" =
        dGetN (masterBase st) "PORT") ∧
    (∀ (st : DjangoSettings) (cfg : List (String × PyVal)),
      ciGet cfg "ENGINE" = none → dGet (masterBase st) "ENGINE" = none →
      dGetN (get_alias_and_config st cfg).2 "ENGINE" =
        PyVal.vStr "django_omnitenant.backends.postgresql") := by
  refine ⟨⟨rfl, rfl⟩, fun st cfg h => ?_, fun st cfg h => ?_,
    fun st cfg h => ?_, fun st cfg h => ?_, fun st cfg h h2 => ?_⟩
  · simp only [ciGetN] at h
    simp [get_alias_and_config, dGetN, dGet, List.find?, pyOr, h, ciGetN]
  · simp [get_alias_and_config, dGetN, dGet, dGetD, List.find?, pyOr,
      ciGetN, h, truthy]
  · simp only [ciGetN] at h
    simp [get_alias_and_config, dGetN, dGet, List.find?, pyOr, h, ciGetN]
  · simp [get_alias_and_config, dGetN, dGet, dGetD, List.find?, pyOr,
      ciGetN, h, truthy]
  · simp only [dGet] at h2
    simp [get_alias_and_config, dGetN, dGet, dGetD, List.find?, pyOr,
      ciGetN, h, h2, truthy]

/-- Witness for C6: the field-level precedence applied at the concrete
tenant override and master configuration of the claim. -/
theorem config_merge_field_by_field_witness :
    dGetN (get_alias_and_config
      ⟨"default",
        [("default", [("HOST", PyVal.vStr "b"), ("PORT", PyVal.vInt 5432)])],
        "UTC"⟩
      [("HOST", PyVal.vStr "a")]).2 "HOST" =
      ciGetN [("HOST", PyVal.vStr "a")] "HOST" :=
  config_merge_field_by_field.2.1
    ⟨"default",
      [("default", [("HOST", PyVal.vStr "b"), ("PORT", PyVal.vInt 5432)])],
      "UTC"⟩
    [("HOST", PyVal.vStr "a")] rfl

/-! ## Claim theorems: batch migration -/

/-- C8: for tenants [A, B, C] where B's `backend.migrate` raises and A's
and C's succeed, the batch invokes migrate for every tenant in order,
reports A and C as succeeded and B as failed with its underlying error,
and the loop itself completes normally — B's failure neither blocks C nor
escapes the batch. -/
theorem migrate_all_tenants_partial_failure
    (migrate : TenantRow → Option String → Option String → Except String Unit)
    (appConfigs : List String) (tA tB tC : TenantRow) (err : String)
    (hA : migrate tA none none = Except.ok ())
    (hB : migrate tB none none = Except.error err)
    (hC : migrate tC none none = Except.ok ()) :
    migrateAllTenants migrate appConfigs none none [tA, tB, tC] =
      ⟨[⟨tA.tenantId, none, none⟩, ⟨tB.tenantId, none, none⟩,
          ⟨tC.tenantId, none, none⟩],
        [MigrateMsg.heading tA.tenantId "", MigrateMsg.success tA.tenantId,
          MigrateMsg.heading tB.tenantId "",
          MigrateMsg.failure tB.tenantId err,
          MigrateMsg.heading tC.tenantId "",
          MigrateMsg.success tC.tenantId]⟩ := by
  simp [migrateAllTenants, handleLoop, tenantMigrateStep, migrationTarget,
    hA, hB, hC]

/-- Witness for C8 with a concrete migrate behavior that fails exactly on
tenant B. -/
theorem migrate_all_tenants_partial_failure_witness :
    migrateAllTenants
      (fun t _ _ =>
        if t.tenantId = "B" then Except.error "boom" else Except.ok ())
      [] none none [⟨"A"⟩, ⟨"B"⟩, ⟨"C"⟩] =
      ⟨[⟨"A", none, none⟩, ⟨"B", none, none⟩, ⟨"C", none, none⟩],
        [MigrateMsg.heading "A" "", MigrateMsg.success "A",
          MigrateMsg.heading "B" "", MigrateMsg.failure "B" "boom",
          MigrateMsg.heading "C" "", MigrateMsg.success "C"]⟩ :=
  migrate_all_tenants_partial_failure
    (fun t _ _ =>
      if t.tenantId = "B" then Except.error "boom" else Except.ok ())
    [] ⟨"A"⟩ ⟨"B"⟩ ⟨"C"⟩ "boom" rfl rfl rfl

/-! ## Claim theorems: settings wrapper immutability -/

/-- C10: assignment to an attribute already cached in the wrapper's
instance dictionary raises `ValueError` and produces no new state (the
cached value is untouched); assignment to a name not yet cached does not
raise and is forwarded to the underlying Django settings object, leaving
the wrapper dictionary as it was. -/
theorem wrapped_setattr_guard (st : SettingsState) (key : String)
    (v : PyVal) :
    ((st.wrapperDict.find? (fun p => p.1 = key)).isSome = true →
      wrappedSetattr st key v =
        Except.error "Item assignment is not supported" ∧
      ∀ st' : SettingsState, wrappedSetattr st key v ≠ Except.ok st') ∧
    ((st.wrapperDict.find? (fun p => p.1 = key)).isSome = false →
      wrappedSetattr st key v =
        Except.ok ⟨st.wrapperDict, dSet st.djangoSettings key v⟩) := by
  constructor
  · intro h
    refine ⟨?_, fun st' => ?_⟩ <;> simp [wrappedSetattr, h]
  · intro h
    simp [wrappedSetattr, h]

/-- Witness for C10: assigning to a cached attribute raises; assigning to
an uncached one is forwarded. -/
theorem wrapped_setattr_guard_witness :
    wrappedSetattr ⟨[("MASTER_DB_ALIAS", PyVal.vStr "default")], []⟩
      "MASTER_DB_ALIAS" (PyVal.vStr "other") =
      Except.error "Item assignment is not supported" ∧
    wrappedSetattr ⟨[("MASTER_DB_ALIAS", PyVal.vStr "default")], []⟩
      "DEBUG" (PyVal.vBool true) =
      Except.ok ⟨[("MASTER_DB_ALIAS", PyVal.vStr "default")],
        dSet [] "DEBUG" (PyVal.vBool true)⟩ :=
  ⟨((wrapped_setattr_guard
      ⟨[("MASTER_DB_ALIAS", PyVal.vStr "default")], []⟩
      "MASTER_DB_ALIAS" (PyVal.vStr "other")).1 rfl).1,
    (wrapped_setattr_guard
      ⟨[("MASTER_DB_ALIAS", PyVal.vStr "default")], []⟩
      "DEBUG" (PyVal.vBool true)).2 rfl⟩

end Omnitenant
